import Mathlib

/-!
# Verification of `request-noninteractive-callback` (src/src/index.ts)

Shallow embedding of the interaction-idle watcher library:

* the `debounce` primitive (src/src/index.ts lines 39-65) as a small state
  machine `Deb` with actions "wrapper called" / "scheduled timer fired";
* the `NonInteractiveCallbackManager` constructor (lines 146-207) as a pure
  function `NICM.construct` threading an explicit environment of external
  subscriptions, so that partially-completed constructions are observable;
* the running watcher (methods `notify`, `focusHandler`, `register`, `call`,
  `cancelPending`, `release` and the two chained debounce stages wired up in
  the constructor) as a transition system `NICM.Sys` / `NICM.stepAct` driven
  by a trace of delivered events, timer expirations and method calls.

JavaScript specifics are modelled explicitly: string truthiness (`""` is
falsy), `element?.id` producing `undefined` which interpolates as the text
"undefined", timer handles that are never reset to the `-1` sentinel, and
`clearTimeout` on a stale handle being a no-op.
-/

namespace RNIC

/-- A DOM element as far as this library observes it: its `id` attribute
(`""` when absent, as in the DOM) and whether it has a parent node
(`MutationObserver.observe` throws when handed `null`). -/
structure Elem where
  id : String
  hasParent : Bool
deriving DecidableEq, Repr

/-- The document capability the constructor consumes: CSS-selector
resolution (`document.querySelector`), returning `none` when no element
matches. -/
structure Doc where
  query : String → Option Elem

/-- Errors that can escape the constructor.  `configurationError` is the
`'No selector or element id provided.'` throw (line 170), `resolutionError`
is the throw inside `assertExists` (lines 34-37) reached from line 173, and
`observeTypeError` is the host TypeError raised by
`observer.observe(null, ...)` (line 206) when the target has no parent. -/
inductive CtorErr
  | configurationError
  | resolutionError
  | observeTypeError
deriving DecidableEq, Repr

/-- External subscriptions made during construction: interaction-event
listeners on the target (line 182), the document focus listener (line 186),
the mouseleave listener on the target (line 190), and the structural
observer on the target's parent (line 206). -/
structure CtorEnv where
  targetListeners : List String
  focusListenerAdded : Bool
  mouseleaveListenerAdded : Bool
  observing : Bool
deriving DecidableEq, Repr

/-- No subscriptions yet. -/
def emptyEnv : CtorEnv :=
  { targetListeners := [], focusListenerAdded := false,
    mouseleaveListenerAdded := false, observing := false }

/-- Constructor parameters (the destructured object of lines 146-159), with
the source's defaults.  `selector = none` models passing `undefined`. -/
structure CtorParams where
  selector : Option String
  element : Option Elem
  notifyOnFocusLoss : Bool := false
  notifyOnMouseLeave : Bool := true
  interactiveEvents : List String := ["mousemove", "keydown", "click", "change"]

/-- JS truthiness of `selector` (a string or `undefined`): truthy iff
present and nonempty. -/
def truthyStr : Option String → Bool
  | none => false
  | some s => s ≠ ""

/-- JS truthiness of `element?.id`: truthy iff an element was passed and its
id is nonempty. -/
def elemIdTruthy : Option Elem → Bool
  | none => false
  | some e => e.id ≠ ""

/-- The text the template literal `` `#${element?.id}` `` interpolates:
`element?.id` is `undefined` when no element was passed, and `undefined`
stringifies to `"undefined"`. -/
def elemIdStr : Option Elem → String
  | none => "undefined"
  | some e => e.id

/-- Line 165 as written:
`this.selector = selector || element?.id ? `#${element?.id}` : ''`.
By JS precedence `||` binds tighter than `?:`, so the condition is
`(selector || element?.id)` and the branch taken interpolates
`element?.id` — the supplied selector string itself is never stored. -/
def computedSelector (p : CtorParams) : String :=
  if truthyStr p.selector || elemIdTruthy p.element then
    "#" ++ elemIdStr p.element
  else ""

/-- The successfully constructed watcher's resolution outcome: the target
element (`this.element`, line 173) and the stored selector string. -/
structure CtorResult where
  target : Elem
  selector : String
deriving DecidableEq, Repr

/-- The subscriptions made by lines 181-191, before the `observe` call:
every requested interaction event kind on the target, the document focus
listener exactly when `notifyOnFocusLoss`, the mouseleave listener exactly
when `notifyOnMouseLeave`. -/
def listenerEnv (p : CtorParams) : CtorEnv :=
  { targetListeners := p.interactiveEvents,
    focusListenerAdded := p.notifyOnFocusLoss,
    mouseleaveListenerAdded := p.notifyOnMouseLeave,
    observing := false }

/-- The constructor (lines 146-207), threading the subscription environment
in source order: compute `this.selector`; throw `configurationError` if it
is empty (line 170); resolve `this.element = element || assertExists(
document.querySelector(this.selector))` (line 173), throwing
`resolutionError` when the query misses; subscribe the listeners of lines
181-191 (`listenerEnv`); finally observe the target's parent (line 206),
which throws if the target has no parent — after the listeners were
already added. -/
def construct (doc : Doc) (p : CtorParams) : CtorEnv × Except CtorErr CtorResult :=
  if computedSelector p = "" then
    (emptyEnv, .error .configurationError)
  else
    match p.element.orElse (fun _ => doc.query (computedSelector p)) with
    | none => (emptyEnv, .error .resolutionError)
    | some el =>
      if el.hasParent then
        ({ listenerEnv p with observing := true },
          .ok { target := el, selector := computedSelector p })
      else
        (listenerEnv p, .error .observeTypeError)

/-- A concrete document containing exactly one element, `<div id="myDiv">`
with a parent, and no element whose id is `undefined`. -/
def docMyDiv : Doc :=
  { query := fun s => if s = "#myDiv" then some { id := "myDiv", hasParent := true } else none }

end RNIC

namespace RNIC

/-! ## The `debounce` primitive (lines 39-65)

`debounce(n, immed, f?)` dispatches on `immed`: a boolean selects
`(f, immed)`, a function selects `(immed, false)` — i.e. the two-argument
form defaults the leading flag to `false` — anything else throws.  The
returned wrapper closes over `timer`, initialised to the `-1` sentinel and
thereafter always holding the handle of the *last* `setTimeout`; it is never
reset to `-1`, not even when the scheduled timer fires. -/

/-- The argument shapes of `debounce`: `(n, flag, fn)` or `(n, fn)`. -/
inductive DebArgs
  | withFlag (now : Bool)
  | noFlag

/-- The leading flag the dispatch switch (lines 44-53) resolves: the
boolean when given, `false` for the two-argument form. -/
def debNow : DebArgs → Bool
  | .withFlag b => b
  | .noFlag => false

/-- State of one debounce wrapper closure.  `timer` is the closure's
`timer` variable (`-1` sentinel, then successive handles); `pending` holds
the arguments captured by the currently scheduled, not-yet-fired
`setTimeout` body, if any; `syncCalls` logs each synchronous (leading)
invocation of `fn` and `timerCalls` each trailing (timer-fired) one, by the
argument list passed. -/
structure Deb where
  timer : Int
  pending : Option (List Nat)
  nextId : Int
  syncCalls : List (List Nat)
  timerCalls : List (List Nat)
deriving DecidableEq, Repr

/-- Wrapper state at construction time (line 56: `let timer = -1`). -/
def debInit : Deb :=
  { timer := -1, pending := none, nextId := 0, syncCalls := [], timerCalls := [] }

/-- One call to the wrapper (lines 57-64) with argument list `args`:
if `timer === -1 && now`, invoke `fn` synchronously; `clearTimeout(timer)`
cancels the scheduled invocation (whenever one is pending its handle is
exactly `timer`); then `timer = setTimeout(..., n)` schedules a fresh
trailing invocation with these arguments.  The delay `n` plays no role in
the untimed logic. -/
def debCall (now : Bool) (s : Deb) (args : List Nat) : Deb :=
  let s1 := if s.timer = -1 ∧ now then { s with syncCalls := s.syncCalls ++ [args] } else s
  { s1 with pending := some args, timer := s1.nextId, nextId := s1.nextId + 1 }

/-- Expiry of the scheduled timer: the `setTimeout` body
`() => fn.apply(this, args)` runs with the captured arguments.  `timer`
keeps its (now stale) handle — it is not reset to `-1`. -/
def debFire (s : Deb) : Deb :=
  match s.pending with
  | some args => { s with pending := none, timerCalls := s.timerCalls ++ [args] }
  | none => s

/-- Actions driving one debounce wrapper. -/
inductive DebAct
  | call (args : List Nat)
  | fire

/-- Run one action. -/
def debStep (now : Bool) (s : Deb) : DebAct → Deb
  | .call args => debCall now s args
  | .fire => debFire s

/-- Run a trace of actions. -/
def debRun (now : Bool) (s : Deb) : List DebAct → Deb
  | [] => s
  | a :: rest => debRun now (debStep now s a) rest

/-- Whether a trace contains at least one wrapper call. -/
def hasCall : List DebAct → Bool
  | [] => false
  | .call _ :: _ => true
  | .fire :: rest => hasCall rest

end RNIC

namespace RNIC

/-! ## The running watcher as a transition system

A successfully constructed `NonInteractiveCallbackManager` together with
its host environment (event listeners, the two debounce closures' timers,
the mutation observer).  Callbacks are identified by `Nat` tokens, events
by `Nat` tokens; invoking a callback appends `(callback, event?)` to an
observation log.  Timer handles are `Int` (fresh ids from `nextId`,
`0` reserved for the dummy `setTimeout(() => {}, 0)` field initialiser of
line 126, `-1` the debounce sentinel). -/

/-- State of a constructed watcher plus environment.  The debounce wrappers
built at lines 175-179 appear as: `eventPending` (the event-debounce
stage's scheduled timer, if any), `idleClosureTimer` (the `timer` variable
inside the `debounced` closure), `idleTimerIds` (all currently scheduled
idle-fire timers — kept as a list precisely so that "at most one
outstanding" is a provable invariant, not a modelling artifact), and
`timeoutHandle` (`this.timeoutHandle`).  The subscription flags record
which listeners/observer are currently attached. -/
structure Sys where
  registeredCallbacks : List Nat
  notifyOnFocusLoss : Bool
  notifyOnMouseLeave : Bool
  timeoutHandle : Int
  eventPending : Option Int
  idleClosureTimer : Int
  idleTimerIds : List Int
  nextId : Int
  interactSubscribed : Bool
  focusSubscribed : Bool
  mouseleaveSubscribed : Bool
  observerConnected : Bool
  log : List (Nat × Option Nat)
deriving DecidableEq, Repr

/-- The state right after a successful construction with focus-loss flag
`nfl` and mouse-leave flag `nml`: no callbacks, no pending debounce timers
(`timeoutHandle` holds the dummy handle `0`, the idle closure still holds
`-1`), interaction listeners attached, focus/mouseleave listeners attached
per their flags (lines 181-191), observer connected (line 206). -/
def init (nfl nml : Bool) : Sys :=
  { registeredCallbacks := [], notifyOnFocusLoss := nfl, notifyOnMouseLeave := nml,
    timeoutHandle := 0, eventPending := none, idleClosureTimer := -1,
    idleTimerIds := [], nextId := 1,
    interactSubscribed := true, focusSubscribed := nfl, mouseleaveSubscribed := nml,
    observerConnected := true, log := [] }

/-- `notify(evt?)` (lines 215-218): invoke every registered callback in
registration order with `evt`, and `return this` — in this state-passing
embedding the returned `this` is the resulting state. -/
def notify (s : Sys) (evt : Option Nat) : Sys :=
  { s with log := s.log ++ s.registeredCallbacks.map (fun cb => (cb, evt)) }

/-- `cancelPending()` (lines 276-279): `clearTimeout(this.timeoutHandle)`
removes the timer with that handle from the scheduler, a no-op on a stale
handle; `return this`. -/
def cancelPending (s : Sys) : Sys :=
  { s with idleTimerIds := s.idleTimerIds.filter (fun t => t ≠ s.timeoutHandle) }

/-- `call(evt?)` (lines 265-269): `this.cancelPending(); this.notify(evt);
return this`. -/
def call (s : Sys) (evt : Option Nat) : Sys :=
  notify (cancelPending s) evt

/-- `register(f)` (lines 250-256): append `f` unless already included
(`Array.includes` is identity comparison); `return this`. -/
def register (s : Sys) (cb : Nat) : Sys :=
  if cb ∈ s.registeredCallbacks then s
  else { s with registeredCallbacks := s.registeredCallbacks ++ [cb] }

/-- `release()` (lines 288-294): disconnect the observer; remove the
interaction listeners; remove the focus listener only if
`notifyOnFocusLoss`; remove the mouseleave listener only if
`notifyOnMouseLeave`; `return this`.  No timer is cleared. -/
def release (s : Sys) : Sys :=
  { s with observerConnected := false,
           interactSubscribed := false,
           focusSubscribed := if s.notifyOnFocusLoss then false else s.focusSubscribed,
           mouseleaveSubscribed := if s.notifyOnMouseLeave then false else s.mouseleaveSubscribed }

/-- `focusHandler(evt)` (lines 227-232): if the newly focused node is not
contained in the target (`inside = false`), `cancelPending` then `notify()`
with no event. -/
def focusHandler (s : Sys) (inside : Bool) : Sys :=
  if inside then s else notify (cancelPending s) none

/-- The body of the event-debounce stage (the arrow of lines 176-179), run
when that stage's timer fires: `this.cancelPending()`, then
`this.timeoutHandle = debounced()`.  `debounced()` itself (the wrapper of
lines 57-64 around `this.notify`, leading flag false) does
`clearTimeout(timer)` on its closure's previous handle and schedules a
fresh idle-fire timer, whose handle is stored in both the closure's `timer`
and `this.timeoutHandle`. -/
def eventStageBody (s : Sys) : Sys :=
  let s1 := cancelPending s
  let s2 := { s1 with idleTimerIds := s1.idleTimerIds.filter (fun t => t ≠ s1.idleClosureTimer) }
  { s2 with idleTimerIds := s2.idleTimerIds ++ [s2.nextId],
            idleClosureTimer := s2.nextId,
            timeoutHandle := s2.nextId,
            nextId := s2.nextId + 1 }

/-- One call of `this.listener` (the event-debounce wrapper, leading flag
false): `clearTimeout` of the previously scheduled event-stage timer and
scheduling of a fresh one.  The delivered event is captured but the stage's
body ignores it. -/
def listenerCall (s : Sys) : Sys :=
  { s with eventPending := some s.nextId, nextId := s.nextId + 1 }

/-- Actions driving a watcher: delivered DOM events, timer expirations,
mutation-observer reports, and the holder's method calls. -/
inductive Act
  | interact (ev : Nat)
  | eventFire (t : Int)
  | idleFire (t : Int)
  | focusEvt (inside : Bool)
  | mouseLeave (ev : Nat)
  | removedFromParent (isTarget : Bool)
  | register (cb : Nat)
  | call (evt : Option Nat)
  | cancelPending
  | release
deriving DecidableEq, Repr

/-- One transition.  Listener-driven actions are gated on the
corresponding subscription still being attached (a removed listener is not
invoked; a disconnected observer delivers no records); timer expirations
are gated on the timer actually being scheduled; method calls are always
available to the holder. -/
def stepAct (s : Sys) : Act → Sys
  | .interact _ => if s.interactSubscribed then listenerCall s else s
  | .eventFire t =>
      if s.eventPending = some t then eventStageBody { s with eventPending := none } else s
  | .idleFire t =>
      if t ∈ s.idleTimerIds then
        notify { s with idleTimerIds := s.idleTimerIds.filter (fun u => u ≠ t) } none
      else s
  | .focusEvt inside => if s.focusSubscribed then focusHandler s inside else s
  | .mouseLeave ev => if s.mouseleaveSubscribed then notify s (some ev) else s
  | .removedFromParent isTarget =>
      if s.observerConnected && isTarget then release s else s
  | .register cb => register s cb
  | .call evt => call s evt
  | .cancelPending => cancelPending s
  | .release => release s

/-- Run a trace of actions. -/
def run (s : Sys) : List Act → Sys
  | [] => s
  | a :: rest => run (stepAct s a) rest

/-- Environment-driven actions (everything except the holder's method
calls): delivered events, timer expirations, observer reports. -/
def ExternalAct : Act → Bool
  | .interact _ => true
  | .eventFire _ => true
  | .idleFire _ => true
  | .focusEvt _ => true
  | .mouseLeave _ => true
  | .removedFromParent _ => true
  | _ => false

/-- Whether an action is a `register` call. -/
def isRegisterAct : Act → Bool
  | .register _ => true
  | _ => false

/-- The idle-timer invariant: either no idle-fire timer is scheduled, or
exactly the one whose handle both the `debounced` closure and
`this.timeoutHandle` hold. -/
def IdleInv (s : Sys) : Prop :=
  s.idleTimerIds = [] ∨
    (s.idleTimerIds = [s.idleClosureTimer] ∧ s.timeoutHandle = s.idleClosureTimer)

/-- A listener/observer is only ever attached under its construction flag. -/
def SubInv (s : Sys) : Prop :=
  (s.focusSubscribed = true → s.notifyOnFocusLoss = true) ∧
  (s.mouseleaveSubscribed = true → s.notifyOnMouseLeave = true)

/-- All reachable-state invariants used below. -/
def Inv (s : Sys) : Prop :=
  IdleInv s ∧ SubInv s ∧ s.registeredCallbacks.Nodup

/-- All listeners and the observer detached. -/
def Released (s : Sys) : Prop :=
  s.interactSubscribed = false ∧ s.focusSubscribed = false ∧
  s.mouseleaveSubscribed = false ∧ s.observerConnected = false

end RNIC

namespace RNIC

/-- With the leading flag false the guard `timer === -1 && now` never
holds, so a trace never produces a synchronous invocation. -/
theorem debRun_false_syncCalls (acts : List DebAct) :
    ∀ s : Deb, (debRun false s acts).syncCalls = s.syncCalls := by
  induction acts with
  | nil => intro s; rfl
  | cons a rest ih =>
    intro s
    cases a with
    | call args => simpa [debRun, debStep, debCall] using ih _
    | fire =>
      cases h : s.pending with
      | none => simpa [debRun, debStep, debFire, h] using ih _
      | some args => simpa [debRun, debStep, debFire, h] using ih _

/-- `nextId` stays nonnegative, `timer` becomes (and stays) nonnegative as
soon as a call occurs, and a nonnegative `timer` never goes back down. -/
theorem debRun_timer_nonneg (now : Bool) (acts : List DebAct) :
    ∀ s : Deb, 0 ≤ s.nextId →
      (hasCall acts = true → 0 ≤ (debRun now s acts).timer) ∧
      (0 ≤ s.timer → 0 ≤ (debRun now s acts).timer) ∧
      0 ≤ (debRun now s acts).nextId := by
  induction acts with
  | nil => intro s hs; exact ⟨fun h => by simp [hasCall] at h, fun h => h, hs⟩
  | cons a rest ih =>
    intro s hs
    cases a with
    | call args =>
      have hstep : (debStep now s (.call args)).nextId = s.nextId + 1 ∧
          (debStep now s (.call args)).timer = s.nextId := by
        simp only [debStep, debCall]
        split <;> simp
      have h := ih (debStep now s (.call args)) (by omega)
      exact ⟨fun _ => h.2.1 (by omega), fun _ => h.2.1 (by omega), h.2.2⟩
    | fire =>
      have hstep : (debStep now s .fire).nextId = s.nextId ∧
          (debStep now s .fire).timer = s.timer := by
        simp only [debStep, debFire]
        cases s.pending <;> simp
      have h := ih (debStep now s .fire) (hstep.1 ▸ hs)
      refine ⟨fun hc => ?_, fun ht => h.2.1 (hstep.2 ▸ ht), h.2.2⟩
      have : hasCall rest = true := by simpa [hasCall] using hc
      exact h.1 this

/-- Under the idle-timer invariant, `cancelPending` leaves no idle-fire
timer scheduled: the single outstanding handle is `timeoutHandle`. -/
theorem idleInv_cancelPending {s : Sys} (h : IdleInv s) :
    (cancelPending s).idleTimerIds = [] := by
  rcases h with h | ⟨h1, h2⟩
  · simp [cancelPending, h]
  · simp [cancelPending, h1, h2]

/-- The event-stage body preserves the idle-timer invariant: it cancels
everything outstanding before scheduling the one fresh timer, whose handle
it stores in both the closure and `timeoutHandle`. -/
theorem idleInv_eventStageBody {s : Sys} (h : IdleInv s) :
    IdleInv (eventStageBody s) := by
  have hc : (cancelPending s).idleTimerIds = [] := idleInv_cancelPending h
  right
  constructor <;> simp [eventStageBody, hc]

/-- `release` keeps listeners-only-under-their-flag. -/
theorem subInv_release {s : Sys} (h : SubInv s) : SubInv (release s) := by
  refine ⟨fun hf => ?_, fun hm => ?_⟩
  · cases hn : s.notifyOnFocusLoss with
    | true => exact hn
    | false =>
      simp only [release, hn] at hf
      simp at hf
      exact h.1 hf
  · cases hn : s.notifyOnMouseLeave with
    | true => exact hn
    | false =>
      simp only [release, hn] at hm
      simp at hm
      exact h.2 hm

/-- The freshly constructed state satisfies all invariants. -/
theorem inv_init (nfl nml : Bool) : Inv (init nfl nml) :=
  ⟨Or.inl rfl, ⟨fun h => h, fun h => h⟩, List.nodup_nil⟩

/-- Every transition preserves the invariants. -/
theorem inv_step {s : Sys} (h : Inv s) (a : Act) : Inv (stepAct s a) := by
  obtain ⟨hidle, hsub, hnd⟩ := h
  cases a with
  | interact ev =>
    simp only [stepAct]
    split
    · exact ⟨hidle, hsub, hnd⟩
    · exact ⟨hidle, hsub, hnd⟩
  | eventFire t =>
    simp only [stepAct]
    split
    · exact ⟨idleInv_eventStageBody hidle, hsub, hnd⟩
    · exact ⟨hidle, hsub, hnd⟩
  | idleFire t =>
    simp only [stepAct]
    split
    · rename_i hmem
      rcases hidle with hidle | ⟨h1, h2⟩
      · rw [hidle] at hmem
        simp at hmem
      · refine ⟨Or.inl ?_, hsub, hnd⟩
        rw [h1] at hmem
        rw [List.mem_singleton] at hmem
        show List.filter _ s.idleTimerIds = []
        rw [h1, hmem]
        simp
    · exact ⟨hidle, hsub, hnd⟩
  | focusEvt inside =>
    simp only [stepAct, focusHandler]
    split
    · split
      · exact ⟨hidle, hsub, hnd⟩
      · exact ⟨Or.inl (idleInv_cancelPending hidle), hsub, hnd⟩
    · exact ⟨hidle, hsub, hnd⟩
  | mouseLeave ev =>
    simp only [stepAct]
    split
    · exact ⟨hidle, hsub, hnd⟩
    · exact ⟨hidle, hsub, hnd⟩
  | removedFromParent isTarget =>
    simp only [stepAct]
    split
    · exact ⟨hidle, subInv_release hsub, hnd⟩
    · exact ⟨hidle, hsub, hnd⟩
  | register cb =>
    simp only [stepAct, register]
    split
    · exact ⟨hidle, hsub, hnd⟩
    · rename_i hmem
      refine ⟨hidle, hsub, ?_⟩
      show (s.registeredCallbacks ++ [cb]).Nodup
      simp [List.nodup_append, hnd, hmem]
  | call evt =>
    exact ⟨Or.inl (idleInv_cancelPending hidle), hsub, hnd⟩
  | cancelPending =>
    exact ⟨Or.inl (idleInv_cancelPending hidle), hsub, hnd⟩
  | release =>
    exact ⟨hidle, subInv_release hsub, hnd⟩

/-- Traces preserve the invariants. -/
theorem inv_run {s : Sys} (h : Inv s) (acts : List Act) : Inv (run s acts) := by
  induction acts generalizing s with
  | nil => exact h
  | cons a rest ih => exact ih (inv_step h a)

/-- Running a concatenated trace is running its parts in sequence. -/
theorem run_append (l1 l2 : List Act) : ∀ s : Sys, run s (l1 ++ l2) = run (run s l1) l2 := by
  induction l1 with
  | nil => intro s; rfl
  | cons a rest ih => intro s; exact ih (stepAct s a)

/-- `release` detaches every subscription (the conditional removals match
the conditional additions, by `SubInv`). -/
theorem released_release {s : Sys} (h : SubInv s) : Released (release s) := by
  refine ⟨rfl, ?_, ?_, rfl⟩
  · show (if s.notifyOnFocusLoss then false else s.focusSubscribed) = false
    cases hn : s.notifyOnFocusLoss with
    | true => simp
    | false =>
      simp only [Bool.false_eq_true, if_false]
      cases hf : s.focusSubscribed with
      | true => rw [h.1 hf] at hn; exact hn
      | false => rfl
  · show (if s.notifyOnMouseLeave then false else s.mouseleaveSubscribed) = false
    cases hn : s.notifyOnMouseLeave with
    | true => simp
    | false =>
      simp only [Bool.false_eq_true, if_false]
      cases hf : s.mouseleaveSubscribed with
      | true => rw [h.2 hf] at hn; exact hn
      | false => rfl

/-- Nothing re-attaches a subscription: once released, always released. -/
theorem released_step {s : Sys} (h : Released s) (a : Act) : Released (stepAct s a) := by
  obtain ⟨h1, h2, h3, h4⟩ := h
  cases a with
  | interact ev => simp only [stepAct, h1]; simp; exact ⟨h1, h2, h3, h4⟩
  | eventFire t =>
    simp only [stepAct]
    split
    · exact ⟨h1, h2, h3, h4⟩
    · exact ⟨h1, h2, h3, h4⟩
  | idleFire t =>
    simp only [stepAct]
    split
    · exact ⟨h1, h2, h3, h4⟩
    · exact ⟨h1, h2, h3, h4⟩
  | focusEvt inside => simp only [stepAct, h2]; simp; exact ⟨h1, h2, h3, h4⟩
  | mouseLeave ev => simp only [stepAct, h3]; simp; exact ⟨h1, h2, h3, h4⟩
  | removedFromParent isTarget => simp only [stepAct, h4]; simp; exact ⟨h1, h2, h3, h4⟩
  | register cb =>
    simp only [stepAct, register]
    split
    · exact ⟨h1, h2, h3, h4⟩
    · exact ⟨h1, h2, h3, h4⟩
  | call evt => exact ⟨h1, h2, h3, h4⟩
  | cancelPending => exact ⟨h1, h2, h3, h4⟩
  | release =>
    refine ⟨rfl, ?_, ?_, rfl⟩
    · show (if s.notifyOnFocusLoss then false else s.focusSubscribed) = false
      rw [h2]; simp
    · show (if s.notifyOnMouseLeave then false else s.mouseleaveSubscribed) = false
      rw [h3]; simp

/-- Once released, always released, along any trace. -/
theorem released_run {s : Sys} (h : Released s) (acts : List Act) : Released (run s acts) := by
  induction acts generalizing s with
  | nil => exact h
  | cons a rest ih => exact ih (released_step h a)

/-- A released watcher with no pending timer of either debounce stage is
inert: every environment-driven action leaves the state untouched. -/
theorem external_step_fixed {s : Sys} (hrel : Released s) (hev : s.eventPending = none)
    (hidle : s.idleTimerIds = []) (a : Act) (ha : ExternalAct a = true) :
    stepAct s a = s := by
  obtain ⟨h1, h2, h3, h4⟩ := hrel
  cases a with
  | interact ev => simp [stepAct, h1]
  | eventFire t => simp [stepAct, hev]
  | idleFire t => simp [stepAct, hidle]
  | focusEvt inside => simp [stepAct, h2]
  | mouseLeave ev => simp [stepAct, h3]
  | removedFromParent isTarget => simp [stepAct, h4]
  | register cb => simp [ExternalAct] at ha
  | call evt => simp [ExternalAct] at ha
  | cancelPending => simp [ExternalAct] at ha
  | release => simp [ExternalAct] at ha

/-- A released, quiescent watcher stays untouched along any trace of
environment-driven actions. -/
theorem external_run_fixed {s : Sys} (hrel : Released s) (hev : s.eventPending = none)
    (hidle : s.idleTimerIds = []) (acts : List Act)
    (ha : ∀ a ∈ acts, ExternalAct a = true) : run s acts = s := by
  induction acts with
  | nil => rfl
  | cons a rest ih =>
    have hstep := external_step_fixed hrel hev hidle a (ha a (List.mem_cons_self a rest))
    show run (stepAct s a) rest = s
    rw [hstep]
    exact ih fun b hb => ha b (List.mem_cons_of_mem a hb)

end RNIC

/-- C3, counterexample: constructed with the leading flag, after the first
call's trailing timer has fired no invocation is pending, yet the next call
does not invoke `fn` synchronously — the guard tests the `timer` handle,
which is never reset to the `-1` sentinel — refuting "on every call at a
moment when no invocation is pending, the wrapper invokes fn synchronously". -/
theorem c3_leading_not_every_idle_call :
    (RNIC.debRun true RNIC.debInit [.call [], .fire]).pending = none ∧
    (RNIC.debCall true (RNIC.debRun true RNIC.debInit [.call [], .fire]) [5]).syncCalls =
      (RNIC.debRun true RNIC.debInit [.call [], .fire]).syncCalls := by
  exact ⟨rfl, rfl⟩

/-- C3, amended: with the leading flag enabled the wrapper invokes `fn`
synchronously exactly on calls made while the internal timer handle still
holds its `-1` sentinel — that is, only on the first call ever to the
wrapper (the very first call fires synchronously and schedules the trailing
invocation; once any call has occurred the handle is a nonnegative
`setTimeout` handle forever, so no later call fires synchronously even when
nothing is pending).  With the flag false, or defaulted by the two-argument
form, no synchronous invocation ever occurs. -/
theorem c3_leading_only_first_call :
    (∀ acts : List RNIC.DebAct, (RNIC.debRun false RNIC.debInit acts).syncCalls = []) ∧
    (∀ acts : List RNIC.DebAct,
      (RNIC.debRun (RNIC.debNow .noFlag) RNIC.debInit acts).syncCalls = []) ∧
    (∀ args : List Nat, RNIC.debCall true RNIC.debInit args =
      { timer := 0, pending := some args, nextId := 1,
        syncCalls := [args], timerCalls := [] }) ∧
    (∀ (s : RNIC.Deb) (args : List Nat), s.timer ≠ -1 →
      (RNIC.debCall true s args).syncCalls = s.syncCalls) ∧
    (∀ acts : List RNIC.DebAct, RNIC.hasCall acts = true →
      (RNIC.debRun true RNIC.debInit acts).timer ≠ -1) := by
  refine ⟨fun acts => RNIC.debRun_false_syncCalls acts _,
    fun acts => RNIC.debRun_false_syncCalls acts _,
    fun args => by simp [RNIC.debCall, RNIC.debInit],
    fun s args h => by simp [RNIC.debCall, h],
    fun acts hc => ?_⟩
  have h := (RNIC.debRun_timer_nonneg true acts RNIC.debInit (by simp [RNIC.debInit])).1 hc
  omega

/-- Witness for C3's amended theorem: instantiating the quantified parts at
the state reached by one call and its timer expiry, and at a one-call
trace. -/
theorem c3_leading_only_first_call_witness :
    (RNIC.debCall true (RNIC.debRun true RNIC.debInit [.call [], .fire]) [7]).syncCalls =
      (RNIC.debRun true RNIC.debInit [.call [], .fire]).syncCalls ∧
    (RNIC.debRun true RNIC.debInit [.call [3]]).timer ≠ -1 := by
  exact ⟨c3_leading_only_first_call.2.2.2.1 _ [7] (by decide),
    c3_leading_only_first_call.2.2.2.2 [.call [3]] (by decide)⟩

/-- C1: the claim says that when only a CSS-selector string is supplied the
target is resolved by querying the document with that selector.  The code
instead stores and queries `"#undefined"`: with selector `"#myDiv"` and no
element handle, against a document in which `"#myDiv"` resolves,
construction throws `resolutionError` (because `querySelector("#undefined")`
misses) even though the supplied selector resolves.  This evaluates the
code at that failing input. -/
theorem c1_selector_only_queries_hash_undefined :
    RNIC.computedSelector { selector := some "#myDiv", element := none } = "#undefined" ∧
    RNIC.construct RNIC.docMyDiv { selector := some "#myDiv", element := none } =
      (RNIC.emptyEnv, .error .resolutionError) ∧
    RNIC.docMyDiv.query "#myDiv" = some { id := "myDiv", hasParent := true } := by
  exact ⟨rfl, rfl, rfl⟩

/-- C2, counterexample: an interaction whose event-debounce stage has
already fired leaves an idle-fire timer pending; `release` (lines 288-294)
removes listeners and disconnects the observer but clears no timer, so the
previously pending debounce timer still fires after release and invokes the
registered callback — refuting "no previously pending debounce timer causes
the registered callbacks to be invoked". -/
theorem c2_pending_timer_fires_after_release :
    (RNIC.run (RNIC.init false true)
      [.register 7, .interact 1, .eventFire 1, .release]).log = [] ∧
    (RNIC.run (RNIC.init false true)
      [.register 7, .interact 1, .eventFire 1, .release, .idleFire 2]).log =
      [(7, none)] :=
  ⟨rfl, rfl⟩

/-- C2, amended: after `release()` no subsequent interaction event, focus
event, mouse-leave event or mutation report has any effect (no callback
invocation and no timer scheduled) — those listeners and the observer are
detached and stay detached along any further trace; however, a debounce
timer (of either stage) already pending at release time is not cancelled
and still fires, which can invoke the registered callbacks. -/
theorem c2_release_stops_event_driven_notifications (nfl nml : Bool)
    (acts acts2 : List RNIC.Act) (ev : Nat) (b : Bool) :
    RNIC.stepAct (RNIC.run (RNIC.init nfl nml) (acts ++ RNIC.Act.release :: acts2))
        (.interact ev) =
      RNIC.run (RNIC.init nfl nml) (acts ++ RNIC.Act.release :: acts2) ∧
    RNIC.stepAct (RNIC.run (RNIC.init nfl nml) (acts ++ RNIC.Act.release :: acts2))
        (.focusEvt b) =
      RNIC.run (RNIC.init nfl nml) (acts ++ RNIC.Act.release :: acts2) ∧
    RNIC.stepAct (RNIC.run (RNIC.init nfl nml) (acts ++ RNIC.Act.release :: acts2))
        (.mouseLeave ev) =
      RNIC.run (RNIC.init nfl nml) (acts ++ RNIC.Act.release :: acts2) ∧
    RNIC.stepAct (RNIC.run (RNIC.init nfl nml) (acts ++ RNIC.Act.release :: acts2))
        (.removedFromParent b) =
      RNIC.run (RNIC.init nfl nml) (acts ++ RNIC.Act.release :: acts2) := by
  have hrel : RNIC.Released (RNIC.run (RNIC.init nfl nml) (acts ++ RNIC.Act.release :: acts2)) := by
    have h1 : acts ++ RNIC.Act.release :: acts2 = (acts ++ [RNIC.Act.release]) ++ acts2 := by
      simp
    rw [h1, RNIC.run_append, RNIC.run_append]
    exact RNIC.released_run
      (RNIC.released_release (RNIC.inv_run (RNIC.inv_init nfl nml) acts).2.1) acts2
  obtain ⟨h1, h2, h3, h4⟩ := hrel
  refine ⟨?_, ?_, ?_, ?_⟩ <;> simp [RNIC.stepAct, h1, h2, h3, h4]

/-- C4: `call(evt?)` on any reachable watcher state cancels the pending
idle-fire timer (leaving none scheduled), appends exactly one invocation of
each registered callback, in registration order, each passing `evt` (or no
event when omitted), and changes nothing else; the source's `return this`
is the resulting watcher state itself in this state-passing embedding. -/
theorem c4_call_fires_all_and_cancels (nfl nml : Bool) (acts : List RNIC.Act)
    (evt : Option Nat) :
    RNIC.stepAct (RNIC.run (RNIC.init nfl nml) acts) (.call evt) =
      { RNIC.run (RNIC.init nfl nml) acts with
        idleTimerIds := [],
        log := (RNIC.run (RNIC.init nfl nml) acts).log ++
          (RNIC.run (RNIC.init nfl nml) acts).registeredCallbacks.map
            (fun cb => (cb, evt)) } := by
  have hidle := (RNIC.inv_run (RNIC.inv_init nfl nml) acts).1
  show RNIC.call (RNIC.run (RNIC.init nfl nml) acts) evt = _
  generalize RNIC.run (RNIC.init nfl nml) acts = s at hidle ⊢
  obtain ⟨regs, b1, b2, th, ep, ict, ids, ni, i1, i2, i3, i4, lg⟩ := s
  rcases hidle with h | ⟨h1, h2⟩
  · simp_all [RNIC.call, RNIC.notify, RNIC.cancelPending]
  · simp_all [RNIC.call, RNIC.notify, RNIC.cancelPending]

/-- For a duplicate-free callback list, firing appends exactly one log
entry per registered callback: the count contributed for `cb` is one when
registered, zero otherwise. -/
theorem count_map_pair {regs : List Nat} (hnd : regs.Nodup) (cb : Nat) (evt : Option Nat) :
    (regs.map (fun c => (c, evt))).count (cb, evt) = if cb ∈ regs then 1 else 0 := by
  induction regs with
  | nil => simp
  | cons a rest ih =>
    have hnd2 : rest.Nodup := (List.nodup_cons.mp hnd).2
    by_cases hac : cb = a
    · subst hac
      have hnotmem : cb ∉ rest := (List.nodup_cons.mp hnd).1
      simp [List.count_cons, ih hnd2, hnotmem]
    · simp [List.count_cons, ih hnd2, hac]

/-- C5: on every reachable state, `registeredCallbacks` is duplicate-free;
registering an already-present callback is a complete no-op (so
first-insertion order is preserved), registering a new one appends it at
the end, and a fire event (`call`) invokes a callback exactly once when it
is registered, however many times `register` was called with it; `register`
returns `this`, the resulting state. -/
theorem c5_register_idempotent (nfl nml : Bool) (acts : List RNIC.Act) (cb : Nat)
    (evt : Option Nat) :
    (RNIC.run (RNIC.init nfl nml) acts).registeredCallbacks.Nodup ∧
    (cb ∈ (RNIC.run (RNIC.init nfl nml) acts).registeredCallbacks →
      RNIC.stepAct (RNIC.run (RNIC.init nfl nml) acts) (.register cb) =
        RNIC.run (RNIC.init nfl nml) acts) ∧
    (cb ∉ (RNIC.run (RNIC.init nfl nml) acts).registeredCallbacks →
      RNIC.stepAct (RNIC.run (RNIC.init nfl nml) acts) (.register cb) =
        { RNIC.run (RNIC.init nfl nml) acts with
          registeredCallbacks :=
            (RNIC.run (RNIC.init nfl nml) acts).registeredCallbacks ++ [cb] }) ∧
    (RNIC.stepAct (RNIC.run (RNIC.init nfl nml) acts) (.call evt)).log.count (cb, evt) =
      (RNIC.run (RNIC.init nfl nml) acts).log.count (cb, evt) +
      (if cb ∈ (RNIC.run (RNIC.init nfl nml) acts).registeredCallbacks then 1 else 0) := by
  have hnd := (RNIC.inv_run (RNIC.inv_init nfl nml) acts).2.2
  refine ⟨hnd, fun h => ?_, fun h => ?_, ?_⟩
  · show RNIC.register _ cb = _
    simp [RNIC.register, h]
  · show RNIC.register _ cb = _
    simp [RNIC.register, h]
  · show (RNIC.call _ evt).log.count (cb, evt) = _
    simp only [RNIC.call, RNIC.notify, RNIC.cancelPending]
    rw [List.count_append, count_map_pair hnd cb evt]

/-- Witness for C5: with callback 7 registered, re-registering 7 changes
nothing, while registering the new callback 8 appends it after 7. -/
theorem c5_register_idempotent_witness :
    RNIC.stepAct (RNIC.run (RNIC.init false true) [.register 7]) (.register 7) =
      RNIC.run (RNIC.init false true) [.register 7] ∧
    RNIC.stepAct (RNIC.run (RNIC.init false true) [.register 7]) (.register 8) =
      { RNIC.run (RNIC.init false true) [.register 7] with
        registeredCallbacks :=
          (RNIC.run (RNIC.init false true) [.register 7]).registeredCallbacks ++ [8] } :=
  ⟨(c5_register_idempotent false true [.register 7] 7 none).2.1 (by decide),
    (c5_register_idempotent false true [.register 7] 8 none).2.2.1 (by decide)⟩

/-- C6: on every state reachable by any trace of events, timer firings and
method calls, at most one idle-fire (callback-debounce) timer is
outstanding: every scheduling of a new one (the event-stage body, lines
177-178, together with the `clearTimeout` inside the `debounced` wrapper)
first cancels the previously outstanding one. -/
theorem c6_at_most_one_idle_timer (nfl nml : Bool) (acts : List RNIC.Act) :
    (RNIC.run (RNIC.init nfl nml) acts).idleTimerIds.length ≤ 1 := by
  rcases (RNIC.inv_run (RNIC.inv_init nfl nml) acts).1 with h | ⟨h, -⟩ <;> simp [h]

/-- C7: with the observer still connected, a mutation report naming the
target among the removed nodes makes the watcher call `this.release()`
(lines 195-203) — the resulting state is exactly the released one — and
from a state with no timer of either debounce stage pending (e.g. a
freshly constructed watcher), no subsequent environment activity
(interaction events, focus events, mouse-leave events, timer expirations,
further mutation reports) ever invokes a callback. -/
theorem c7_removal_performs_release (nfl nml : Bool) (acts : List RNIC.Act)
    (hobs : (RNIC.run (RNIC.init nfl nml) acts).observerConnected = true)
    (hev : (RNIC.run (RNIC.init nfl nml) acts).eventPending = none)
    (hidle : (RNIC.run (RNIC.init nfl nml) acts).idleTimerIds = []) :
    RNIC.stepAct (RNIC.run (RNIC.init nfl nml) acts) (.removedFromParent true) =
      RNIC.release (RNIC.run (RNIC.init nfl nml) acts) ∧
    ∀ acts2 : List RNIC.Act, (∀ a ∈ acts2, RNIC.ExternalAct a = true) →
      (RNIC.run (RNIC.stepAct (RNIC.run (RNIC.init nfl nml) acts)
          (.removedFromParent true)) acts2).log =
        (RNIC.run (RNIC.init nfl nml) acts).log := by
  have hsub := (RNIC.inv_run (RNIC.inv_init nfl nml) acts).2.1
  have hstep : RNIC.stepAct (RNIC.run (RNIC.init nfl nml) acts) (.removedFromParent true) =
      RNIC.release (RNIC.run (RNIC.init nfl nml) acts) := by
    simp [RNIC.stepAct, hobs]
  refine ⟨hstep, fun acts2 ha => ?_⟩
  rw [hstep, RNIC.external_run_fixed (RNIC.released_release hsub) hev hidle acts2 ha]
  rfl

/-- Witness for C7: a freshly constructed watcher, after the observer
reports the target's removal, ignores subsequent interaction and
mouse-leave events. -/
theorem c7_removal_performs_release_witness :
    RNIC.stepAct (RNIC.run (RNIC.init false true) []) (.removedFromParent true) =
      RNIC.release (RNIC.run (RNIC.init false true) []) ∧
    (RNIC.run (RNIC.stepAct (RNIC.run (RNIC.init false true) [])
        (.removedFromParent true)) [.interact 5, .mouseLeave 2]).log =
      (RNIC.run (RNIC.init false true) []).log := by
  have h := c7_removal_performs_release false true [] rfl rfl rfl
  exact ⟨h.1, h.2 [.interact 5, .mouseLeave 2] (by decide)⟩

/-- C8: the idle (callback-debounce) path invokes the callbacks with no
event — `debounced()` is called with no arguments at line 178, so `notify`
receives `undefined` — while the mouse-leave listener is `this.notify`
itself (line 190), so the callbacks receive the original leave event, and
the focus-loss path calls `this.notify()` with no argument (line 230). -/
theorem c8_idle_no_event_mouseleave_event (nfl nml : Bool) (acts : List RNIC.Act)
    (t : Int) (ev : Nat) :
    (t ∈ (RNIC.run (RNIC.init nfl nml) acts).idleTimerIds →
      (RNIC.stepAct (RNIC.run (RNIC.init nfl nml) acts) (.idleFire t)).log =
        (RNIC.run (RNIC.init nfl nml) acts).log ++
        (RNIC.run (RNIC.init nfl nml) acts).registeredCallbacks.map
          (fun cb => (cb, (none : Option Nat)))) ∧
    ((RNIC.run (RNIC.init nfl nml) acts).mouseleaveSubscribed = true →
      (RNIC.stepAct (RNIC.run (RNIC.init nfl nml) acts) (.mouseLeave ev)).log =
        (RNIC.run (RNIC.init nfl nml) acts).log ++
        (RNIC.run (RNIC.init nfl nml) acts).registeredCallbacks.map
          (fun cb => (cb, some ev))) ∧
    ((RNIC.run (RNIC.init nfl nml) acts).focusSubscribed = true →
      (RNIC.stepAct (RNIC.run (RNIC.init nfl nml) acts) (.focusEvt false)).log =
        (RNIC.run (RNIC.init nfl nml) acts).log ++
        (RNIC.run (RNIC.init nfl nml) acts).registeredCallbacks.map
          (fun cb => (cb, (none : Option Nat)))) := by
  refine ⟨fun h => ?_, fun h => ?_, fun h => ?_⟩
  · simp [RNIC.stepAct, h, RNIC.notify]
  · simp [RNIC.stepAct, h, RNIC.notify]
  · simp [RNIC.stepAct, h, RNIC.focusHandler, RNIC.notify, RNIC.cancelPending]

/-- Witness for C8: after an interaction whose event stage fired, the
pending idle timer's expiry logs `(7, none)`; a mouse-leave event logs the
leave event; with the focus flag set, a focus moving outside logs no
event. -/
theorem c8_idle_no_event_mouseleave_event_witness :
    (RNIC.stepAct (RNIC.run (RNIC.init false true)
        [.register 7, .interact 1, .eventFire 1]) (.idleFire 2)).log =
      (RNIC.run (RNIC.init false true) [.register 7, .interact 1, .eventFire 1]).log ++
      (RNIC.run (RNIC.init false true)
        [.register 7, .interact 1, .eventFire 1]).registeredCallbacks.map
        (fun cb => (cb, (none : Option Nat))) ∧
    (RNIC.stepAct (RNIC.run (RNIC.init false true) [.register 7]) (.mouseLeave 4)).log =
      (RNIC.run (RNIC.init false true) [.register 7]).log ++
      (RNIC.run (RNIC.init false true) [.register 7]).registeredCallbacks.map
        (fun cb => (cb, some 4)) ∧
    (RNIC.stepAct (RNIC.run (RNIC.init true true) [.register 7]) (.focusEvt false)).log =
      (RNIC.run (RNIC.init true true) [.register 7]).log ++
      (RNIC.run (RNIC.init true true) [.register 7]).registeredCallbacks.map
        (fun cb => (cb, (none : Option Nat))) :=
  ⟨(c8_idle_no_event_mouseleave_event false true
      [.register 7, .interact 1, .eventFire 1] 2 0).1 (by decide),
    (c8_idle_no_event_mouseleave_event false true [.register 7] 0 4).2.1 (by decide),
    (c8_idle_no_event_mouseleave_event true true [.register 7] 0 0).2.2 (by decide)⟩

namespace RNIC

/-- Every action other than a `register` call leaves the callback list
untouched. -/
theorem regs_frame (s : Sys) (a : Act) (ha : isRegisterAct a = false) :
    (stepAct s a).registeredCallbacks = s.registeredCallbacks := by
  cases a with
  | interact ev => simp only [stepAct]; split <;> rfl
  | eventFire t => simp only [stepAct]; split <;> rfl
  | idleFire t => simp only [stepAct]; split <;> rfl
  | focusEvt inside =>
    simp only [stepAct, focusHandler]
    split
    · split <;> rfl
    · rfl
  | mouseLeave ev => simp only [stepAct]; split <;> rfl
  | removedFromParent b => simp only [stepAct]; split <;> rfl
  | register cb => simp [isRegisterAct] at ha
  | call evt => rfl
  | cancelPending => rfl
  | release => rfl

end RNIC

/-- C10: on any reachable state, `call`, `cancelPending` and `release`
leave `registeredCallbacks` unchanged — indeed every action other than a
`register` call does — and `call` invoked after `release` still invokes
every callback registered before the release, in order. -/
theorem c10_only_register_mutates_callbacks (nfl nml : Bool) (acts : List RNIC.Act)
    (evt : Option Nat) (a : RNIC.Act) (ha : RNIC.isRegisterAct a = false) :
    (RNIC.stepAct (RNIC.run (RNIC.init nfl nml) acts) (.call evt)).registeredCallbacks =
      (RNIC.run (RNIC.init nfl nml) acts).registeredCallbacks ∧
    (RNIC.stepAct (RNIC.run (RNIC.init nfl nml) acts) .cancelPending).registeredCallbacks =
      (RNIC.run (RNIC.init nfl nml) acts).registeredCallbacks ∧
    (RNIC.stepAct (RNIC.run (RNIC.init nfl nml) acts) .release).registeredCallbacks =
      (RNIC.run (RNIC.init nfl nml) acts).registeredCallbacks ∧
    (RNIC.stepAct (RNIC.run (RNIC.init nfl nml) acts) a).registeredCallbacks =
      (RNIC.run (RNIC.init nfl nml) acts).registeredCallbacks ∧
    (RNIC.stepAct (RNIC.stepAct (RNIC.run (RNIC.init nfl nml) acts) .release)
        (.call evt)).log =
      (RNIC.run (RNIC.init nfl nml) acts).log ++
      (RNIC.run (RNIC.init nfl nml) acts).registeredCallbacks.map (fun cb => (cb, evt)) :=
  ⟨rfl, rfl, rfl, RNIC.regs_frame _ a ha, rfl⟩

/-- Witness for C10: an interaction event delivered to a watcher with
callback 7 registered leaves the callback list unchanged. -/
theorem c10_only_register_mutates_callbacks_witness :
    (RNIC.stepAct (RNIC.run (RNIC.init false true) [.register 7])
        (.interact 3)).registeredCallbacks =
      (RNIC.run (RNIC.init false true) [.register 7]).registeredCallbacks :=
  (c10_only_register_mutates_callbacks false true [.register 7] none (.interact 3) rfl).2.2.2.1

namespace RNIC

/-- A string starting with `#` is nonempty. -/
theorem hash_append_ne_empty (s : String) : ("#" ++ s) ≠ "" := by
  intro h
  have h2 := congrArg String.length h
  rw [String.length_append] at h2
  rw [show ("#" : String).length = 1 from rfl,
    show ("" : String).length = 0 from rfl] at h2
  omega

end RNIC

/-- C9, counterexample: an identified but parentless element passes both
construction checks, the listeners of lines 181-191 are subscribed, and
then `observer.observe(this.element?.parentNode, ...)` (line 206) throws —
a construction-time failure that propagates with the interaction, focus
and mouse-leave listeners already attached, refuting "every
construction-time failure aborts construction entirely with nothing
subscribed". -/
theorem c9_detached_target_leaves_listeners :
    (RNIC.construct RNIC.docMyDiv
      { selector := none, element := some { id := "x", hasParent := false } }).2 =
      .error .observeTypeError ∧
    (RNIC.construct RNIC.docMyDiv
      { selector := none, element := some { id := "x", hasParent := false } }).1 =
      { targetListeners := ["mousemove", "keydown", "click", "change"],
        focusListenerAdded := false, mouseleaveListenerAdded := true,
        observing := false } :=
  ⟨rfl, rfl⟩

/-- C9, amended: construction fails with `ConfigurationError` exactly when
neither a usable (nonempty) selector string nor an element with a nonempty
identifier is supplied, and the `ConfigurationError` and `ResolutionError`
failures abort construction before anything is subscribed; however, when
the resolved target has no parent node, the observer-setup step (line 206)
fails only after the event, focus and mouse-leave listeners were
subscribed, leaving a partially subscribed watcher. -/
theorem c9_config_error_iff_and_early_aborts_clean (doc : RNIC.Doc) (p : RNIC.CtorParams) :
    ((RNIC.construct doc p).2 = .error .configurationError ↔
      (RNIC.truthyStr p.selector = false ∧ RNIC.elemIdTruthy p.element = false)) ∧
    ((RNIC.construct doc p).2 = .error .configurationError →
      (RNIC.construct doc p).1 = RNIC.emptyEnv) ∧
    ((RNIC.construct doc p).2 = .error .resolutionError →
      (RNIC.construct doc p).1 = RNIC.emptyEnv) := by
  by_cases hcond : (RNIC.truthyStr p.selector || RNIC.elemIdTruthy p.element) = true
  · have hne : ¬(RNIC.computedSelector p = "") := by
      have hsel : RNIC.computedSelector p = "#" ++ RNIC.elemIdStr p.element := by
        unfold RNIC.computedSelector
        rw [hcond]
        simp
      rw [hsel]
      exact RNIC.hash_append_ne_empty _
    have hrhs : ¬(RNIC.truthyStr p.selector = false ∧ RNIC.elemIdTruthy p.element = false) := by
      intro hx
      rw [hx.1, hx.2] at hcond
      simp at hcond
    cases hq : p.element.orElse (fun _ => doc.query (RNIC.computedSelector p)) with
    | none =>
      have hc : RNIC.construct doc p = (RNIC.emptyEnv, .error .resolutionError) := by
        unfold RNIC.construct
        rw [if_neg hne, hq]
      rw [hc]
      refine ⟨⟨fun h => by simp at h, fun h => absurd h hrhs⟩, fun h => by simp at h,
        fun _ => rfl⟩
    | some el =>
      cases hpar : el.hasParent with
      | true =>
        have hc : RNIC.construct doc p =
            ({ RNIC.listenerEnv p with observing := true },
              .ok { target := el, selector := RNIC.computedSelector p }) := by
          unfold RNIC.construct
          rw [if_neg hne, hq]
          simp [hpar]
        rw [hc]
        exact ⟨⟨fun h => by simp at h, fun h => absurd h hrhs⟩, fun h => by simp at h,
          fun h => by simp at h⟩
      | false =>
        have hc : RNIC.construct doc p = (RNIC.listenerEnv p, .error .observeTypeError) := by
          unfold RNIC.construct
          rw [if_neg hne, hq]
          simp [hpar]
        rw [hc]
        exact ⟨⟨fun h => by simp at h, fun h => absurd h hrhs⟩, fun h => by simp at h,
          fun h => by simp at h⟩
  · have hfalse : (RNIC.truthyStr p.selector || RNIC.elemIdTruthy p.element) = false := by
      simpa using hcond
    have hsel : RNIC.computedSelector p = "" := by
      unfold RNIC.computedSelector
      rw [hfalse]
      simp
    have hc : RNIC.construct doc p = (RNIC.emptyEnv, .error .configurationError) := by
      unfold RNIC.construct
      rw [if_pos hsel]
    rw [hc]
    have hboth := Bool.or_eq_false_iff.mp hfalse
    exact ⟨⟨fun _ => hboth, fun _ => rfl⟩, fun _ => rfl, fun h => by simp at h⟩

/-- Witness for C9's amended theorem: with neither selector nor element,
construction yields `ConfigurationError` with nothing subscribed. -/
theorem c9_config_error_iff_and_early_aborts_clean_witness :
    (RNIC.construct RNIC.docMyDiv { selector := none, element := none }).2 =
      .error .configurationError ∧
    (RNIC.construct RNIC.docMyDiv { selector := none, element := none }).1 =
      RNIC.emptyEnv := by
  have h := c9_config_error_iff_and_early_aborts_clean RNIC.docMyDiv
    { selector := none, element := none }
  have hc := h.1.mpr ⟨rfl, rfl⟩
  exact ⟨hc, h.2.1 hc⟩
